import Mathlib

/-!
Verification development for the ticker-data ETL pipeline:
`data_extractor.py` (provider-fallback extraction), `populatepostgres.py`
(schema-intersecting generic upsert persistence) and `create_sql_tables.py`
(the DDL the inserts run against).

The Python code is shallowly embedded: provider calls and database
statements are modelled by explicit outcome values and an explicit
relational-state semantics (PostgreSQL `INSERT ... ON CONFLICT`), and the
control flow of each Python method is translated branch by branch.
-/

namespace TickerETL

/-! ## Extraction (`data_extractor.py`)

Each `extract_*` method walks its category's entry of `self.api_priority`
in order inside a `try/except` loop: a provider branch that raises is
caught (`logger.warning`, `continue`), a branch whose data is judged empty
(or whose client is not configured, or an unknown api name) falls through
to the next provider, and the first non-empty success is returned
immediately.  The outcome of one provider branch for one ticker is
abstracted as a `FetchOutcome`. -/

/-- Outcome of invoking one provider branch for one ticker: the branch
raised an exception, produced data judged empty (including "client not
configured" branches that fall through), or returned non-empty data. -/
inductive FetchOutcome (α : Type) where
  | raises : FetchOutcome α
  | empty : FetchOutcome α
  | success (d : α) : FetchOutcome α
deriving DecidableEq, Repr

/-- Whether a provider branch returned non-empty data. -/
def isSuccess {α : Type} : FetchOutcome α → Bool
  | .success _ => true
  | _ => false

/-- `self.api_priority`, `data_extractor.py` lines 25-37: the ordered
provider priority list per data category. -/
def api_priority : List (String × List String) :=
  [("price", ["yfinance", "alpha_vantage"]),
   ("org_overview", ["yfinance", "fmp", "finnhub"]),
   ("calendar_events", ["yfinance", "fmp", "alpha_vantage"]),
   ("balance_sheet", ["yfinance", "fmp", "alpha_vantage"]),
   ("cash_flow", ["yfinance", "fmp", "alpha_vantage"]),
   ("income_statement", ["yfinance", "fmp", "alpha_vantage"]),
   ("valuation_measures", ["yfinance", "fmp"]),
   ("institution_ownership", ["yfinance", "fmp"]),
   ("executive_ownership", ["finnhub", "yfinance"]),
   ("announcement_price", ["yfinance"]),
   ("exec_payment_packages", [])]

/-- The provider priority list of a category (categories looked up in the
source are always present in `api_priority`). -/
def priorityOf (cat : String) : List String :=
  (api_priority.lookup cat).getD []

/-- The fallback loop shared by every `extract_*` method: iterate the
priority list; on an exception or empty result continue to the next
provider; on the first non-empty success return it immediately; if the
list is exhausted return `None`. -/
def fallbackLoop {α : Type} (call : String → FetchOutcome α) :
    List String → Option α
  | [] => none
  | api :: rest =>
      match call api with
      | .success d => some d
      | _ => fallbackLoop call rest

/-- The providers actually invoked by the fallback loop, in order: every
provider up to and including the first non-empty success. -/
def invokedApis {α : Type} (call : String → FetchOutcome α) :
    List String → List String
  | [] => []
  | api :: rest =>
      match call api with
      | .success _ => [api]
      | _ => api :: invokedApis call rest

/-- `extract_price_data`, lines 39-73. -/
def extract_price_data {α : Type} (call : String → FetchOutcome α) : Option α :=
  fallbackLoop call (priorityOf "price")

/-- `extract_org_overview`, lines 75-118. -/
def extract_org_overview {α : Type} (call : String → FetchOutcome α) : Option α :=
  fallbackLoop call (priorityOf "org_overview")

/-- `extract_calendar_events`, lines 120-153. -/
def extract_calendar_events {α : Type} (call : String → FetchOutcome α) : Option α :=
  fallbackLoop call (priorityOf "calendar_events")

/-- `extract_balance_sheet`, lines 211-227 (the `quarterly` flag only
selects which yfinance attribute the branch reads; it is absorbed into the
branch outcome). -/
def extract_balance_sheet {α : Type} (call : String → FetchOutcome α) : Option α :=
  fallbackLoop call (priorityOf "balance_sheet")

/-- `extract_income_statement`, lines 229-245. -/
def extract_income_statement {α : Type} (call : String → FetchOutcome α) : Option α :=
  fallbackLoop call (priorityOf "income_statement")

/-- `extract_cash_flow`, lines 247-263. -/
def extract_cash_flow {α : Type} (call : String → FetchOutcome α) : Option α :=
  fallbackLoop call (priorityOf "cash_flow")

/-- `extract_valuation_measures`, lines 265-285. -/
def extract_valuation_measures {α : Type} (call : String → FetchOutcome α) : Option α :=
  fallbackLoop call (priorityOf "valuation_measures")

/-- `extract_institution_ownership`, lines 287-303. -/
def extract_institution_ownership {α : Type} (call : String → FetchOutcome α) : Option α :=
  fallbackLoop call (priorityOf "institution_ownership")

/-- `extract_executive_ownership`, lines 305-317. -/
def extract_executive_ownership {α : Type} (call : String → FetchOutcome α) : Option α :=
  fallbackLoop call (priorityOf "executive_ownership")

/-- `extract_announcement_price`, lines 155-209: a single yfinance fetch
wrapped in one `try/except`; an exception or an empty result yields
`None`. -/
def extract_announcement_price {α : Type} (call : String → FetchOutcome α) : Option α :=
  match call "yfinance" with
  | .success d => some d
  | _ => none

/-- `data_types`, `extract_all_data` lines 323-328: the categories the
orchestrating extraction loop iterates, in source order. -/
def data_types : List String :=
  ["price", "org_overview", "calendar_events", "balance_sheet",
   "income_statement", "cash_flow", "valuation_measures",
   "institution_ownership", "executive_ownership", "announcement_price"]

/-- The `if/elif` dispatch inside `extract_all_data`'s loop, lines
330-352.  `call cat api` is the outcome of provider branch `api` for
category `cat`. -/
def extractByType {α : Type} (call : String → String → FetchOutcome α)
    (cat : String) : Option α :=
  if cat = "price" then extract_price_data (call cat)
  else if cat = "org_overview" then extract_org_overview (call cat)
  else if cat = "calendar_events" then extract_calendar_events (call cat)
  else if cat = "balance_sheet" then extract_balance_sheet (call cat)
  else if cat = "income_statement" then extract_income_statement (call cat)
  else if cat = "cash_flow" then extract_cash_flow (call cat)
  else if cat = "valuation_measures" then extract_valuation_measures (call cat)
  else if cat = "institution_ownership" then extract_institution_ownership (call cat)
  else if cat = "executive_ownership" then extract_executive_ownership (call cat)
  else if cat = "announcement_price" then extract_announcement_price (call cat)
  else none

/-- `extract_all_data`, lines 319-354: populate `results[data_type]` for
every entry of `data_types`. -/
def extract_all_data {α : Type} (call : String → String → FetchOutcome α) :
    List (String × Option α) :=
  data_types.map (fun dt => (dt, extractByType call dt))

/-! ## Relational state and PostgreSQL statement semantics

`populatepostgres.py` sends `INSERT ... ON CONFLICT` statements to
PostgreSQL.  To settle the persistence claims the relevant PostgreSQL
semantics is made explicit: a table is a column list, its unique
constraints (a `SERIAL PRIMARY KEY` contributes a unique constraint on its
single column) and its stored rows; `ON CONFLICT (cols)` requires a unique
constraint on exactly those columns, otherwise the statement fails; a
`NULL` conflict-key value never matches an existing row (unique indexes
treat NULLs as distinct). -/

/-- Scalar database value (opaque; only equality matters). -/
abbrev Value := String

/-- A stored row: each column of the table paired with its (nullable)
value. -/
abbrev StoredRow := List (String × Option Value)

/-- A live table: columns, unique constraints and current rows. -/
structure Table where
  schema : List String
  uniques : List (List String)
  rows : List StoredRow
deriving DecidableEq, Repr

/-- The live database: tables by name. -/
abbrev Database := List (String × Table)

/-- A pandas DataFrame: a column list plus rows of (nullable) values
aligned with the columns. -/
structure DataFrame where
  cols : List String
  rows : List (List (Option Value))
deriving DecidableEq, Repr

/-- `df.empty`: true when either axis has length zero. -/
def dfEmpty (df : DataFrame) : Bool :=
  df.rows.isEmpty || df.cols.isEmpty

/-- `df is None or df.empty`. -/
def dfOptEmpty : Option DataFrame → Bool
  | none => true
  | some df => dfEmpty df

/-- The value of column `c` in a stored row (`none` both for SQL NULL and
for a column absent from the row). -/
def rowVal (r : StoredRow) (c : String) : Option Value :=
  (r.lookup c).join

/-- The value of column `c` in a DataFrame row given the DataFrame's
column list. -/
def dfRowVal (cols : List String) (vals : List (Option Value)) (c : String) :
    Option Value :=
  ((cols.zip vals).lookup c).join

/-- Find a table by name. -/
def findTable (db : Database) (name : String) : Option Table :=
  db.lookup name

/-- `_get_table_columns`, `populatepostgres.py` lines 30-37: the live
column list of a table via `information_schema.columns`; an absent table
yields the empty list. -/
def getTableColumns (db : Database) (name : String) : List String :=
  ((findTable db name).map Table.schema).getD []

/-- Replace a table in the database (commit of a successful statement). -/
def setTable (db : Database) (name : String) (t : Table) : Database :=
  db.map (fun p => if p.1 == name then (name, t) else p)

/-- Same column set, ignoring order (PostgreSQL unique-index inference for
an `ON CONFLICT` target). -/
def sameSet (a b : List String) : Bool :=
  a.all (b.contains ·) && b.all (a.contains ·)

/-- One expression of a `DO UPDATE SET` item: `EXCLUDED.col` (the incoming
value) or `CURRENT_TIMESTAMP`. -/
inductive UpdateExpr where
  | excluded (col : String) : UpdateExpr
  | currentTimestamp : UpdateExpr
deriving DecidableEq, Repr

/-- The conflict action of an `INSERT ... ON CONFLICT` statement. -/
inductive ConflictAction where
  | doNothing : ConflictAction
  | doUpdate (set : List (String × UpdateExpr)) : ConflictAction
deriving DecidableEq, Repr

/-- An `INSERT INTO t (insertCols) VALUES ... ON CONFLICT (conflictCols)
<action>` statement (its row values are passed separately, aligned with
`insertCols`). -/
structure UpsertStmt where
  insertCols : List String
  conflictCols : List String
  action : ConflictAction
deriving DecidableEq, Repr

/-- The `DO UPDATE SET` items of a statement (empty for `DO NOTHING`). -/
def stmtUpdateSet (stmt : UpsertStmt) : List (String × UpdateExpr) :=
  match stmt.action with
  | .doUpdate set => set
  | .doNothing => []

/-- The incoming row as a full stored row over the table's schema: columns
not in the insert list receive NULL. -/
def toStoredRow (schema insertCols : List String)
    (vals : List (Option Value)) : StoredRow :=
  schema.map (fun c => (c, dfRowVal insertCols vals c))

/-- Whether a new row conflicts with a stored row on the conflict-key
columns: every key column non-NULL on both sides and equal (NULLs are
distinct in a unique index). -/
def keysConflict (key : List String) (r s : StoredRow) : Bool :=
  key.all (fun c =>
    match rowVal r c, rowVal s c with
    | some v, some w => v == w
    | _, _ => false)

/-- Apply a `DO UPDATE SET` list to a stored row given the incoming
values. -/
def applyUpdate (now : Value) (insertCols : List String)
    (vals : List (Option Value)) (set : List (String × UpdateExpr))
    (s : StoredRow) : StoredRow :=
  s.map (fun p =>
    match set.lookup p.1 with
    | some (.excluded c2) => (p.1, dfRowVal insertCols vals c2)
    | some .currentTimestamp => (p.1, some now)
    | none => p)

/-- Process one incoming row of an upsert: update the conflicting stored
rows if any (per the conflict action), otherwise append the new row. -/
def execRow (now : Value) (schema : List String) (stmt : UpsertStmt)
    (tableRows : List StoredRow) (vals : List (Option Value)) :
    List StoredRow :=
  if tableRows.any (fun s =>
      keysConflict stmt.conflictCols s (toStoredRow schema stmt.insertCols vals)) then
    match stmt.action with
    | .doNothing => tableRows
    | .doUpdate set =>
        tableRows.map (fun s =>
          if keysConflict stmt.conflictCols s (toStoredRow schema stmt.insertCols vals) then
            applyUpdate now stmt.insertCols vals set s
          else s)
  else tableRows ++ [toStoredRow schema stmt.insertCols vals]

/-- Execute an `INSERT ... ON CONFLICT` statement against one table:
checks that all referenced columns exist and that the conflict target is
backed by a unique constraint, then processes the rows in order. -/
def execUpsert (now : Value) (t : Table) (stmt : UpsertStmt)
    (values : List (List (Option Value))) : Except String Table :=
  if !stmt.insertCols.all (t.schema.contains ·) then
    .error "column does not exist"
  else if !stmt.conflictCols.all (t.schema.contains ·) then
    .error "column does not exist"
  else if !(stmtUpdateSet stmt).all (fun p => t.schema.contains p.1) then
    .error "column does not exist"
  else if !t.uniques.any (fun u => sameSet u stmt.conflictCols) then
    .error "there is no unique or exclusion constraint matching the ON CONFLICT specification"
  else
    .ok { t with rows := values.foldl (execRow now t.schema stmt) t.rows }

/-! ## Generic upsert (`populatepostgres.py`) -/

/-- Log levels used by the inserter. -/
inductive LogLevel where
  | warning : LogLevel
  | error : LogLevel
  | info : LogLevel
deriving DecidableEq, Repr

/-- Result of one insert call: the returned boolean, the database after
commit or rollback, and the log events emitted. -/
structure InsertResult where
  success : Bool
  db : Database
  logs : List (LogLevel × String)
deriving DecidableEq, Repr

/-- The `DO UPDATE SET` list built at lines 144-151: every intersected
non-key column set to `EXCLUDED.<col>`, plus
`created_at = CURRENT_TIMESTAMP`. -/
def buildUpdateSet (update_columns : List String) :
    List (String × UpdateExpr) :=
  update_columns.map (fun c => (c, UpdateExpr.excluded c)) ++
    [("created_at", UpdateExpr.currentTimestamp)]

/-- The statement text assembled at lines 141-152 of
`insert_dataframe_to_table`. -/
def buildStmt (df_columns conflict_key : List String) : UpsertStmt :=
  { insertCols := df_columns
    conflictCols := conflict_key
    action := .doUpdate
      (buildUpdateSet (df_columns.filter (fun c => !conflict_key.contains c))) }

/-- `insert_dataframe_to_table`, lines 120-165: the generic
insert/update of a DataFrame into any table.  Returns `False` for a
missing/empty DataFrame, for an empty schema intersection, and for a
database error (statement rolled back); returns `True` after a successful
commit. -/
def insert_dataframe_to_table (db : Database) (now : Value)
    (df : Option DataFrame) (table_name ticker : String)
    (conflict_key : List String) : InsertResult :=
  match df with
  | none =>
      { success := false, db := db
        logs := [(.warning, "No " ++ table_name ++ " data to insert for " ++ ticker)] }
  | some df =>
      if dfEmpty df then
        { success := false, db := db
          logs := [(.warning, "No " ++ table_name ++ " data to insert for " ++ ticker)] }
      else
        let table_columns := getTableColumns db table_name
        let df_columns := df.cols.filter (table_columns.contains ·)
        if df_columns.isEmpty then
          { success := false, db := db
            logs := [(.warning, "No matching columns for " ++ table_name ++ " table for " ++ ticker)] }
        else
          let values := df.rows.map (fun vals => df_columns.map (dfRowVal df.cols vals))
          let stmt := buildStmt df_columns conflict_key
          match findTable db table_name with
          | none =>
              { success := false, db := db
                logs := [(.error, "Error inserting " ++ table_name ++ " data for " ++ ticker)] }
          | some t =>
              match execUpsert now t stmt values with
              | .error e =>
                  { success := false, db := db
                    logs := [(.error, "Error inserting " ++ table_name ++ " data for " ++ ticker ++ ": " ++ e)] }
              | .ok t2 =>
                  { success := true, db := setTable db table_name t2
                    logs := [(.info, "Inserted/Updated rows into " ++ table_name ++ " for " ++ ticker)] }

/-- `insert_announcement_price`, lines 167-172. -/
def insert_announcement_price (db : Database) (now : Value) (ticker : String)
    (df : Option DataFrame) : InsertResult :=
  insert_dataframe_to_table db now df "announcement_price" ticker
    ["symbol", "announcement_date"]

/-- `insert_balance_sheet`, lines 174-176. -/
def insert_balance_sheet (db : Database) (now : Value) (ticker : String)
    (df : Option DataFrame) : InsertResult :=
  insert_dataframe_to_table db now df "balance_sheet" ticker ["symbol", "asOfDate"]

/-- `insert_income_statement`, lines 178-180. -/
def insert_income_statement (db : Database) (now : Value) (ticker : String)
    (df : Option DataFrame) : InsertResult :=
  insert_dataframe_to_table db now df "income_statement" ticker ["symbol", "asOfDate"]

/-- `insert_cash_flow`, lines 182-184. -/
def insert_cash_flow (db : Database) (now : Value) (ticker : String)
    (df : Option DataFrame) : InsertResult :=
  insert_dataframe_to_table db now df "cash_flow" ticker ["symbol", "asOfDate"]

/-- `insert_executive_ownership`, lines 227-229. -/
def insert_executive_ownership (db : Database) (now : Value) (ticker : String)
    (df : Option DataFrame) : InsertResult :=
  insert_dataframe_to_table db now df "executive_ownership" ticker
    ["symbol", "name", "latestTransDate"]

/-- The `DELETE FROM institution_ownership WHERE symbol = %s` statement
(committed on its own connection), lines 214-224; a failing delete is
caught and rolled back, leaving the database unchanged. -/
def deleteWhereSymbol (db : Database) (table_name ticker : String) : Database :=
  match findTable db table_name with
  | none => db
  | some t =>
      setTable db table_name
        { t with rows := t.rows.filter (fun r => !(rowVal r "symbol" == some ticker)) }

/-- `insert_institution_ownership`, lines 211-225: first delete the
ticker's previously stored rows, then run the generic insert (which
reports failure when the DataFrame is missing or empty). -/
def insert_institution_ownership (db : Database) (now : Value)
    (ticker : String) (df : Option DataFrame) : InsertResult :=
  let db1 := deleteWhereSymbol db "institution_ownership" ticker
  insert_dataframe_to_table db1 now df "institution_ownership" ticker
    ["symbol", "organization"]

/-- The column list of the `INSERT INTO price` statement,
`insert_price_data` lines 45-51 (note: `regularMarketTime` is not among
the inserted columns). -/
def price_insert_columns : List String :=
  ["symbol", "regularMarketPrice", "regularMarketChangePercent",
   "regularMarketChange", "regularMarketDayHigh", "regularMarketDayLow",
   "regularMarketVolume", "regularMarketPreviousClose", "regularMarketOpen",
   "exchangeName", "longName", "currency", "marketCap"]

/-- `insert_price_data`, lines 40-63: fixed-column insert of one record
with `ON CONFLICT (symbol, regularMarketTime) DO NOTHING`; returns `False`
for missing data or on a database error. -/
def insert_price_data (db : Database) (now : Value) (ticker : String)
    (data : Option StoredRow) : InsertResult :=
  match data with
  | none => { success := false, db := db, logs := [] }
  | some d =>
      let stmt : UpsertStmt :=
        { insertCols := price_insert_columns
          conflictCols := ["symbol", "regularMarketTime"]
          action := .doNothing }
      let vals := [price_insert_columns.map (rowVal d)]
      match findTable db "price" with
      | none =>
          { success := false, db := db
            logs := [(.error, "Error inserting price data for " ++ ticker)] }
      | some t =>
          match execUpsert now t stmt vals with
          | .error e =>
              { success := false, db := db
                logs := [(.error, "Error inserting price data for " ++ ticker ++ ": " ++ e)] }
          | .ok t2 =>
              { success := true, db := setTable db "price" t2
                logs := [(.info, "Inserted price data for " ++ ticker)] }

/-- The conflict keys declared at the generic-upsert call sites
(`insert_announcement_price`, `insert_balance_sheet`,
`insert_income_statement`, `insert_cash_flow`,
`insert_institution_ownership`, `insert_executive_ownership`). -/
def declared_conflict_keys : List (List String) :=
  [["symbol", "announcement_date"],
   ["symbol", "asOfDate"],
   ["symbol", "organization"],
   ["symbol", "name", "latestTransDate"]]

/-! ## The DDL (`create_sql_tables.py`)

`create_all_tables` creates every table with `id SERIAL PRIMARY KEY` as
the only constraint: the primary key contributes a unique constraint on
`id` alone, and no table declares any other unique constraint. -/

/-- The `price` table DDL, lines 24-48. -/
def priceTable : Table :=
  { schema := ["id", "symbol", "regularMarketPrice", "regularMarketChangePercent",
      "regularMarketChange", "regularMarketTime", "regularMarketDayHigh",
      "regularMarketDayLow", "regularMarketVolume", "regularMarketPreviousClose",
      "regularMarketSource", "regularMarketOpen", "exchangeName", "marketState",
      "quoteType", "longName", "currency", "quoteSourceName", "currencySymbol",
      "marketCap", "created_at"]
    uniques := [["id"]]
    rows := [] }

/-- The `quarterly_price` table DDL, lines 50-63. -/
def quarterlyPriceTable : Table :=
  { schema := ["id", "symbol", "quarter", "year", "avg_price", "high_price",
      "low_price", "volume_avg", "created_at"]
    uniques := [["id"]]
    rows := [] }

/-- The `announcement_price` table DDL, lines 65-79. -/
def announcementPriceTable : Table :=
  { schema := ["id", "symbol", "announcement_date", "announcement_type",
      "price_before", "price_after", "change_percent", "days_before",
      "days_after", "created_at"]
    uniques := [["id"]]
    rows := [] }

/-- The `balance_sheet` table DDL, lines 81-107. -/
def balanceSheetTable : Table :=
  { schema := ["id", "symbol", "asOfDate", "currencyCode", "AccountsPayable",
      "AccountsReceivable", "CashAndCashEquivalents", "CommonStockEquity",
      "CurrentAssets", "CurrentLiabilities", "Goodwill", "GrossPPE",
      "Inventory", "LongTermDebt", "NetDebt", "NetPPE", "NetTangibleAssets",
      "Receivables", "RetainedEarnings", "TotalAssets",
      "TotalEquityGrossMinorityInterest", "created_at"]
    uniques := [["id"]]
    rows := [] }

/-- The `income_statement` table DDL, lines 109-136. -/
def incomeStatementTable : Table :=
  { schema := ["id", "symbol", "asOfDate", "currencyCode", "TotalRevenue",
      "CostOfRevenue", "GrossProfit", "OperatingExpense", "OperatingIncome",
      "InterestExpense", "PretaxIncome", "TaxProvision", "NetIncome",
      "BasicEPS", "DilutedEPS", "EBIT", "EBITDA", "OperatingRevenue",
      "SellingGeneralAndAdministration", "ResearchAndDevelopment",
      "NetIncomeFromContinuingOperationNetMinorityInterest",
      "NetIncomeCommonStockholders", "created_at"]
    uniques := [["id"]]
    rows := [] }

/-- The `cash_flow` table DDL, lines 138-164. -/
def cashFlowTable : Table :=
  { schema := ["id", "symbol", "asOfDate", "currencyCode", "OperatingCashFlow",
      "InvestingCashFlow", "FinancingCashFlow", "NetIncome",
      "DepreciationAndAmortization", "ChangeInWorkingCapital",
      "CapitalExpenditure", "NetBusinessPurchaseAndSale",
      "NetInvestmentPurchaseAndSale", "NetPPEPurchaseAndSale",
      "IssuanceOfDebt", "RepaymentOfDebt", "CommonStockIssuance",
      "CommonStockPayments", "FreeCashFlow", "BeginningCashPosition",
      "EndCashPosition", "created_at"]
    uniques := [["id"]]
    rows := [] }

/-- The `org_overview` table DDL, lines 166-202. -/
def orgOverviewTable : Table :=
  { schema := ["id", "symbol", "address1", "city", "zip", "country", "phone",
      "website", "industry", "industryDisp", "sector", "longBusinessSummary",
      "fullTimeEmployees", "priceHint", "enterpriseValue", "bookValue",
      "priceToBook", "enterpriseToRevenue", "forwardPE", "enterpriseToEbitda",
      "fiftyTwoWeekChange", "profitMargins", "floatShares", "sharesOutstanding",
      "sharesShort", "shortRatio", "sharesShortPriorMonth",
      "heldPercentInstitutions", "heldPercentInsiders", "trailingEps",
      "forwardEps", "created_at"]
    uniques := [["id"]]
    rows := [] }

/-- The `calendar_events` table DDL, lines 204-218. -/
def calendarEventsTable : Table :=
  { schema := ["id", "symbol", "earnings_date", "earnings_average",
      "earnings_low", "earnings_high", "revenue_average", "revenue_low",
      "revenue_high", "created_at"]
    uniques := [["id"]]
    rows := [] }

/-- The `exec_payment_packages` table DDL, lines 220-232. -/
def execPaymentPackagesTable : Table :=
  { schema := ["id", "symbol", "name", "title", "totalPay", "exercisedValue",
      "unexercisedValue", "created_at"]
    uniques := [["id"]]
    rows := [] }

/-- The `institution_ownership` table DDL, lines 234-245. -/
def institutionOwnershipTable : Table :=
  { schema := ["id", "symbol", "organization", "pctHeld", "position", "value",
      "created_at"]
    uniques := [["id"]]
    rows := [] }

/-- The `executive_ownership` table DDL, lines 247-261. -/
def executiveOwnershipTable : Table :=
  { schema := ["id", "symbol", "name", "relation", "url",
      "transactionDescription", "latestTransDate", "positionDirect",
      "positionDirectDate", "created_at"]
    uniques := [["id"]]
    rows := [] }

/-- The `valuation_measures` table DDL, lines 263-276. -/
def valuationMeasuresTable : Table :=
  { schema := ["id", "symbol", "asOfDate", "PriceToEarningsRatio",
      "PriceToSalesRatio", "PriceToBookRatio", "EnterpiseToRevenue",
      "EnterpiseToEbitda", "created_at"]
    uniques := [["id"]]
    rows := [] }

/-- `StockTableCreator.create_all_tables`, `create_sql_tables.py` lines
17-287: the freshly created database. -/
def create_all_tables : Database :=
  [("price", priceTable),
   ("quarterly_price", quarterlyPriceTable),
   ("announcement_price", announcementPriceTable),
   ("balance_sheet", balanceSheetTable),
   ("income_statement", incomeStatementTable),
   ("cash_flow", cashFlowTable),
   ("org_overview", orgOverviewTable),
   ("calendar_events", calendarEventsTable),
   ("exec_payment_packages", execPaymentPackagesTable),
   ("institution_ownership", institutionOwnershipTable),
   ("executive_ownership", executiveOwnershipTable)]

/-! ## The orchestrator (`insert_all_data`, lines 274-294)

`insert_all_data` invokes one insert method per category, in source
order, and discards every returned boolean (the Python method returns
`None`; outcomes are visible only in logs).  Each insert method catches
statement-level errors inside its `try` block and returns `False`, but
`get_db_connection()` (lines 21-28) is called *outside* the `try` block
and re-raises on a connection failure, so a connection failure propagates
out of `insert_all_data` and the remaining categories never run.  The
final step, `calculate_and_insert_quarterly_price`, wraps everything
(including its connection acquisition) in an outer `try` and never
raises.  The execution is modelled as a trace: the list of category
inserts that ran to completion with the boolean each returned, plus a
flag telling whether `insert_all_data` itself ran to completion or was
aborted by a propagated exception. -/

/-- Outcome of one category's persistence attempt: success, a
statement-level error (caught inside the insert's `try` block), or a
connection failure (raised by `get_db_connection` outside the `try`
block). -/
inductive PersistOutcome where
  | ok : PersistOutcome
  | stmtError : PersistOutcome
  | connError : PersistOutcome
deriving DecidableEq, BEq, Repr

/-- Run the category inserts in order: a `connError` raises, aborting the
category itself and every later one; otherwise the insert returns its
boolean and the loop continues. -/
def insertCategoriesTrace (out : String → PersistOutcome) :
    List String → List (String × Bool) × Bool
  | [] => ([], true)
  | c :: rest =>
      match out c with
      | .connError => ([], false)
      | o =>
          let r := insertCategoriesTrace out rest
          ((c, o == PersistOutcome.ok) :: r.1, r.2)

/-- The categories persisted by `insert_all_data`, lines 278-289, in
source order. -/
def insertion_categories : List String :=
  ["price", "org_overview", "calendar_events", "balance_sheet",
   "income_statement", "cash_flow", "valuation_measures",
   "institution_ownership", "executive_ownership", "announcement_price"]

/-- The execution trace of `insert_all_data`: the ten category inserts,
then `calculate_and_insert_quarterly_price` (which catches every
exception, including connection failures, and returns a boolean). -/
def insert_all_data_trace (out : String → PersistOutcome) :
    List (String × Bool) × Bool :=
  match insertCategoriesTrace out insertion_categories with
  | (rs, true) =>
      (rs ++ [("quarterly_price", out "quarterly_price" == PersistOutcome.ok)], true)
  | (rs, false) => (rs, false)

/-! ## Theorems -/

/-- C1: for every category with a non-empty provider priority list,
extraction invokes the providers in list order and returns the first
non-empty successful result immediately; exactly the providers up to and
including the first success are invoked. -/
theorem extract_first_success {α : Type} (cat : String) (l l1 l2 : List String)
    (a : String) (call : String → FetchOutcome α) (d : α)
    (hcat : api_priority.lookup cat = some l)
    (hsplit : l = l1 ++ a :: l2)
    (hfail : ∀ x ∈ l1, isSuccess (call x) = false)
    (hsucc : call a = .success d) :
    fallbackLoop call l = some d ∧ invokedApis call l = l1 ++ [a] := by
  subst hsplit
  clear hcat
  induction l1 with
  | nil => simp [fallbackLoop, invokedApis, hsucc]
  | cons x xs ih =>
      have hx : isSuccess (call x) = false := hfail x (by simp)
      have hrest := ih (fun y hy => hfail y (by simp [hy]))
      cases hc : call x with
      | success e => rw [hc] at hx; simp [isSuccess] at hx
      | raises => simp [fallbackLoop, invokedApis, hc, hrest.1, hrest.2]
      | empty => simp [fallbackLoop, invokedApis, hc, hrest.1, hrest.2]

/-- Witness for C1: the chain [fail, succeed, succeed] on `org_overview`
returns the second provider's data and invokes exactly 2 providers. -/
theorem extract_first_success_witness :
    @fallbackLoop Nat (fun s => if s == "yfinance" then .raises else .success 7)
      (priorityOf "org_overview") = some 7 ∧
    @invokedApis Nat (fun s => if s == "yfinance" then .raises else .success 7)
      (priorityOf "org_overview") = ["yfinance", "fmp"] := by
  have h := extract_first_success (α := Nat) "org_overview"
    ["yfinance", "fmp", "finnhub"] ["yfinance"] ["finnhub"] "fmp"
    (fun s => if s == "yfinance" then .raises else .success 7) 7
    rfl rfl (by decide) rfl
  exact ⟨h.1, h.2⟩

/-- C2: if every provider of a category fails or returns empty, the
extraction loop returns `None` (the loop is total, so no exception
reaches the caller), and `extract_all_data` produces an entry for every
category of `data_types` no matter what the providers do. -/
theorem extract_exhausted_nodata {α : Type} (cat : String) (l : List String)
    (call : String → FetchOutcome α)
    (_hcat : api_priority.lookup cat = some l)
    (hfail : ∀ x ∈ l, isSuccess (call x) = false) :
    fallbackLoop call l = none ∧
      ∀ (c2 : String → String → FetchOutcome α),
        (extract_all_data c2).map Prod.fst = data_types := by
  refine ⟨?_, fun c2 => rfl⟩
  clear _hcat
  induction l with
  | nil => rfl
  | cons x xs ih =>
      have hx : isSuccess (call x) = false := hfail x (by simp)
      cases hc : call x with
      | success e => rw [hc] at hx; simp [isSuccess] at hx
      | raises =>
          simp only [fallbackLoop, hc]
          exact ih (fun y hy => hfail y (by simp [hy]))
      | empty =>
          simp only [fallbackLoop, hc]
          exact ih (fun y hy => hfail y (by simp [hy]))

/-- Witness for C2: with every provider raising, the `price` loop returns
`None` and `extract_all_data` still has an entry per category. -/
theorem extract_exhausted_nodata_witness :
    @fallbackLoop Nat (fun _ => .raises) (priorityOf "price") = none ∧
      (@extract_all_data Nat (fun _ _ => .raises)).map Prod.fst = data_types := by
  have h := extract_exhausted_nodata (α := Nat) "price"
    ["yfinance", "alpha_vantage"] (fun _ => .raises) rfl (by decide)
  exact ⟨h.1, h.2 _⟩

/-- Counterexample for C6: when the first category's insert raises on
connection acquisition (`get_db_connection` is called outside the `try`
block), `insert_all_data` aborts: no category completes and no
per-category outcome is recorded, so the subsequent categories are not
executed. -/
theorem insert_all_conn_abort_counterexample :
    insert_all_data_trace
      (fun c => if c == "price" then .connError else .ok) = ([], false) := by
  decide

/-- Helper for C6: with no connection failure, the category loop records
every category with the boolean its insert returned. -/
theorem insertCategoriesTrace_no_conn (out : String → PersistOutcome)
    (h : ∀ c, out c ≠ PersistOutcome.connError) (cats : List String) :
    insertCategoriesTrace out cats
      = (cats.map (fun c => (c, out c == PersistOutcome.ok)), true) := by
  induction cats with
  | nil => rfl
  | cons c rest ih =>
      cases hc : out c with
      | connError => exact absurd hc (h c)
      | ok => simp [insertCategoriesTrace, hc, ih]
      | stmtError => simp [insertCategoriesTrace, hc, ih]

/-- C6 (amended): as long as no category's insert raises on connection
acquisition, every category's insert is executed even when earlier ones
fail at statement level — the trace completes and records every category
with its own outcome.  (The unamended claim is false: a connection failure
raised by `get_db_connection` outside the `try` block aborts all
subsequent categories, and the Python method returns no per-category
report at all — outcomes are visible only in the logs/trace.) -/
theorem insert_all_isolates_statement_failures (out : String → PersistOutcome)
    (h : ∀ c, out c ≠ PersistOutcome.connError) :
    (insert_all_data_trace out).2 = true ∧
    (insert_all_data_trace out).1.map Prod.fst
      = insertion_categories ++ ["quarterly_price"] ∧
    ∀ p ∈ (insert_all_data_trace out).1, p.2 = (out p.1 == PersistOutcome.ok) := by
  have key := insertCategoriesTrace_no_conn out h insertion_categories
  unfold insert_all_data_trace
  rw [key]
  refine ⟨rfl, ?_, ?_⟩
  · rfl
  · intro p hp
    rcases List.mem_append.mp hp with h1 | h2
    · obtain ⟨c, _, rfl⟩ := List.mem_map.mp h1
      rfl
    · simp only [List.mem_singleton] at h2
      subst h2
      rfl

/-- Witness for C6: category 3 (`calendar_events`) failing at statement
level does not prevent the remaining categories from executing. -/
theorem insert_all_isolates_statement_failures_witness :
    (insert_all_data_trace
      (fun c => if c == "calendar_events" then .stmtError else .ok)).2 = true ∧
    (insert_all_data_trace
        (fun c => if c == "calendar_events" then .stmtError else .ok)).1.map Prod.fst
      = insertion_categories ++ ["quarterly_price"] := by
  have h := insert_all_isolates_statement_failures
    (fun c => if c == "calendar_events" then .stmtError else .ok)
    (by intro c; dsimp only; split <;> simp)
  exact ⟨h.1, h.2.1⟩

/-- Helper for C10: filtering for a predicate after keeping only its
complement yields nothing. -/
theorem filter_after_filter_not {α : Type} (p : α → Bool) (l : List α) :
    (l.filter (fun a => !p a)).filter p = [] := by
  induction l with
  | nil => rfl
  | cons a l ih => by_cases h : p a = true <;> simp [h, ih]

/-- Helper: looking up the key just stored at the head of an association
list. -/
theorem lookup_cons_self {β : Type} (k : String) (b : β) (l : List (String × β)) :
    List.lookup k ((k, b) :: l) = some b := by
  simp [List.lookup]

/-- Helper: a head entry with a different key does not affect a lookup. -/
theorem lookup_cons_ne {β : Type} (k a : String) (b : β) (l : List (String × β))
    (h : (a == k) = false) : List.lookup a ((k, b) :: l) = List.lookup a l := by
  simp [List.lookup, h]

/-- Helper: updating a table present in the database makes the update
visible to a subsequent lookup. -/
theorem findTable_setTable (db : Database) (n : String) (t t2 : Table)
    (h : findTable db n = some t) :
    findTable (setTable db n t2) n = some t2 := by
  induction db with
  | nil => simp [findTable, List.lookup] at h
  | cons p rest ih =>
      obtain ⟨k, tb⟩ := p
      by_cases hk : k = n
      · subst hk
        show List.lookup k (List.map _ ((k, tb) :: rest)) = some t2
        rw [List.map_cons]
        have : (if (k == k) = true then (k, t2) else (k, tb)) = (k, t2) := by
          simp
        rw [this]
        exact lookup_cons_self k t2 _
      · have hk2 : (n == k) = false := by
          simp [Ne.symm hk]
        show List.lookup n (List.map _ ((k, tb) :: rest)) = some t2
        rw [List.map_cons]
        have hhead : (if (k == n) = true then (n, t2) else (k, tb)) = (k, tb) :=
          if_neg (by simp [hk])
        rw [hhead, lookup_cons_ne k n tb _ hk2]
        apply ih
        have hh : List.lookup n ((k, tb) :: rest) = List.lookup n rest :=
          lookup_cons_ne k n tb rest hk2
        rw [show findTable ((k, tb) :: rest) n = List.lookup n ((k, tb) :: rest) from rfl, hh] at h
        exact h

/-- Helper: with a missing or empty DataFrame the generic insert is a
pure no-op returning `False` with a single warning log. -/
theorem insert_dataframe_nodata (db : Database) (now : Value)
    (df : Option DataFrame) (table_name ticker : String) (key : List String)
    (h : dfOptEmpty df = true) :
    insert_dataframe_to_table db now df table_name ticker key
      = { success := false, db := db,
          logs := [(.warning, "No " ++ table_name ++ " data to insert for " ++ ticker)] } := by
  cases df with
  | none => rfl
  | some d =>
      simp only [dfOptEmpty] at h
      simp only [insert_dataframe_to_table]
      rw [if_pos h]

/-- C10: `insert_institution_ownership` deletes the ticker's stored
institution-ownership rows before attempting insertion; with a missing or
empty DataFrame the call reports failure yet the delete has already
executed, so no row of that ticker survives — the database is not left
unchanged on the no-data path. -/
theorem institution_ownership_delete_on_nodata (db : Database) (now : Value)
    (ticker : String) (df : Option DataFrame)
    (h : dfOptEmpty df = true) :
    (insert_institution_ownership db now ticker df).success = false ∧
    (insert_institution_ownership db now ticker df).db
      = deleteWhereSymbol db "institution_ownership" ticker ∧
    ∀ t2, findTable (insert_institution_ownership db now ticker df).db
        "institution_ownership" = some t2 →
      t2.rows.filter (fun r => rowVal r "symbol" == some ticker) = [] := by
  have hdel : ∀ t2, findTable (deleteWhereSymbol db "institution_ownership" ticker)
      "institution_ownership" = some t2 →
      t2.rows.filter (fun r => rowVal r "symbol" == some ticker) = [] := by
    intro t2 ht2
    unfold deleteWhereSymbol at ht2
    cases hf : findTable db "institution_ownership" with
    | none => rw [hf] at ht2; rw [ht2] at hf; simp at hf
    | some t =>
        rw [hf] at ht2
        rw [findTable_setTable db _ t _ hf] at ht2
        cases ht2
        exact filter_after_filter_not _ _
  have heq : insert_institution_ownership db now ticker df
      = { success := false, db := deleteWhereSymbol db "institution_ownership" ticker,
          logs := [(.warning,
            "No " ++ "institution_ownership" ++ " data to insert for " ++ ticker)] } := by
    unfold insert_institution_ownership
    exact insert_dataframe_nodata _ now df "institution_ownership" ticker _ h
  rw [heq]
  exact ⟨rfl, rfl, hdel⟩

/-- Witness for C10: a stored `ACME` institution-ownership row is removed
by a call whose DataFrame is `None` and which returns failure. -/
theorem institution_ownership_delete_on_nodata_witness :
    (insert_institution_ownership
      [("institution_ownership",
        ⟨["id", "symbol", "organization", "created_at"], [["id"]],
          [[("id", some "1"), ("symbol", some "ACME"),
            ("organization", some "X"), ("created_at", none)]]⟩)]
      "t0" "ACME" none).success = false ∧
    (insert_institution_ownership
      [("institution_ownership",
        ⟨["id", "symbol", "organization", "created_at"], [["id"]],
          [[("id", some "1"), ("symbol", some "ACME"),
            ("organization", some "X"), ("created_at", none)]]⟩)]
      "t0" "ACME" none).db
      = [("institution_ownership",
          ⟨["id", "symbol", "organization", "created_at"], [["id"]], []⟩)] := by
  have h := institution_ownership_delete_on_nodata
    [("institution_ownership",
      ⟨["id", "symbol", "organization", "created_at"], [["id"]],
        [[("id", some "1"), ("symbol", some "ACME"),
          ("organization", some "X"), ("created_at", none)]]⟩)]
    "t0" "ACME" none rfl
  exact ⟨h.1, h.2.1.trans (by decide)⟩

/-- C5 (the code bug): against the schema actually created by
`create_all_tables` — whose only unique constraint per table is the one
induced by `id SERIAL PRIMARY KEY` — the generic balance-sheet upsert's
`ON CONFLICT (symbol, asOfDate)` clause has no matching unique
constraint, so the statement fails, the exception is caught and rolled
back, and both calls return `False` leaving zero stored rows instead of
one row per conflict key. -/
theorem balance_sheet_upsert_fails_on_ddl :
    (insert_balance_sheet create_all_tables "t0" "ACME"
      (some ⟨["symbol", "asOfDate", "TotalAssets"],
        [[some "ACME", some "2024-01-01", some "1000"]]⟩)).success = false ∧
    (insert_balance_sheet create_all_tables "t0" "ACME"
      (some ⟨["symbol", "asOfDate", "TotalAssets"],
        [[some "ACME", some "2024-01-01", some "1000"]]⟩)).logs.map Prod.fst
      = [LogLevel.error] ∧
    (insert_balance_sheet (insert_balance_sheet create_all_tables "t0" "ACME"
        (some ⟨["symbol", "asOfDate", "TotalAssets"],
          [[some "ACME", some "2024-01-01", some "1000"]]⟩)).db "t1" "ACME"
      (some ⟨["symbol", "asOfDate", "TotalAssets"],
        [[some "ACME", some "2024-01-01", some "1000"]]⟩)).success = false ∧
    ((findTable (insert_balance_sheet (insert_balance_sheet create_all_tables
          "t0" "ACME"
          (some ⟨["symbol", "asOfDate", "TotalAssets"],
            [[some "ACME", some "2024-01-01", some "1000"]]⟩)).db "t1" "ACME"
        (some ⟨["symbol", "asOfDate", "TotalAssets"],
          [[some "ACME", some "2024-01-01", some "1000"]]⟩)).db
      "balance_sheet").map (fun t => t.rows.length)) = some 0 :=
  ⟨rfl, rfl, rfl, rfl⟩

/-- C9 (the code bug): the `price` insert's
`ON CONFLICT (symbol, regularMarketTime) DO NOTHING` clause has no
matching unique constraint in the `price` DDL, so every insert fails and
returns `False` with zero rows ever stored — there is no "first
successful insert" for first-write-wins semantics to apply to; moreover
`regularMarketTime` is not even among the inserted columns. -/
theorem price_insert_fails_on_ddl :
    (insert_price_data create_all_tables "t0" "ACME"
      (some [("symbol", some "ACME"), ("regularMarketPrice", some "10.5"),
        ("regularMarketChangePercent", some "1.2"),
        ("regularMarketChange", some "0.1"),
        ("regularMarketDayHigh", some "11"), ("regularMarketDayLow", some "10"),
        ("regularMarketVolume", some "100"),
        ("regularMarketPreviousClose", some "10.4"),
        ("regularMarketOpen", some "10.5"), ("exchangeName", some "NMS"),
        ("longName", some "Acme Corp"), ("currency", some "USD"),
        ("marketCap", some "1000")])).success = false ∧
    (insert_price_data create_all_tables "t0" "ACME"
      (some [("symbol", some "ACME"), ("regularMarketPrice", some "10.5"),
        ("regularMarketChangePercent", some "1.2"),
        ("regularMarketChange", some "0.1"),
        ("regularMarketDayHigh", some "11"), ("regularMarketDayLow", some "10"),
        ("regularMarketVolume", some "100"),
        ("regularMarketPreviousClose", some "10.4"),
        ("regularMarketOpen", some "10.5"), ("exchangeName", some "NMS"),
        ("longName", some "Acme Corp"), ("currency", some "USD"),
        ("marketCap", some "1000")])).logs.map Prod.fst = [LogLevel.error] ∧
    ((findTable (insert_price_data create_all_tables "t0" "ACME"
        (some [("symbol", some "ACME"), ("regularMarketPrice", some "10.5"),
          ("regularMarketChangePercent", some "1.2"),
          ("regularMarketChange", some "0.1"),
          ("regularMarketDayHigh", some "11"), ("regularMarketDayLow", some "10"),
          ("regularMarketVolume", some "100"),
          ("regularMarketPreviousClose", some "10.4"),
          ("regularMarketOpen", some "10.5"), ("exchangeName", some "NMS"),
          ("longName", some "Acme Corp"), ("currency", some "USD"),
          ("marketCap", some "1000")])).db "price").map
      (fun t => t.rows.length)) = some 0 ∧
    price_insert_columns.contains "regularMarketTime" = false :=
  ⟨rfl, rfl, rfl, rfl⟩

/-- Helper: a relation that holds everywhere holds pairwise on any
list. -/
theorem pairwise_of_forall_rel {α : Type} {R : α → α → Prop}
    (h : ∀ a b, R a b) : ∀ l : List α, l.Pairwise R
  | [] => List.Pairwise.nil
  | a :: l => List.Pairwise.cons (fun b _ => h a b) (pairwise_of_forall_rel h l)

/-- Helper: projecting a row onto a column list and looking a column up
recovers the projection function on that column. -/
theorem dfRowVal_map (l : List String) (f : String → Option Value) (c : String) :
    dfRowVal l (l.map f) c = if l.contains c then f c else none := by
  induction l with
  | nil => rfl
  | cons a l ih =>
      by_cases hca : (c == a) = true
      · have hc : c = a := by rwa [beq_iff_eq] at hca
        subst hc
        show ((List.zip (c :: l) (f c :: List.map f l)).lookup c).join = _
        rw [List.zip_cons_cons, lookup_cons_self]
        have hcon : (c :: l).contains c = true := by
          rw [List.contains_cons]
          simp
        rw [if_pos hcon]
        rfl
      · have hca2 : (c == a) = false := by rwa [Bool.not_eq_true] at hca
        show ((List.zip (a :: l) (f a :: List.map f l)).lookup c).join = _
        rw [List.zip_cons_cons, lookup_cons_ne a c _ _ hca2]
        have hcon : (a :: l).contains c = l.contains c := by
          rw [List.contains_cons, hca2, Bool.false_or]
        rw [hcon]
        exact ih

/-- Helper: the value of a column in the stored form of an incoming row:
schema columns carry the incoming value, other columns are absent. -/
theorem rowVal_toStoredRow (schema ic : List String)
    (vals : List (Option Value)) (c : String) :
    rowVal (toStoredRow schema ic vals) c
      = if schema.contains c then dfRowVal ic vals c else none := by
  induction schema with
  | nil => rfl
  | cons a l ih =>
      by_cases hca : (c == a) = true
      · have hc : c = a := by rwa [beq_iff_eq] at hca
        subst hc
        show (List.lookup c ((c, dfRowVal ic vals c) :: _)).join = _
        rw [lookup_cons_self]
        have hcon : (c :: l).contains c = true := by
          rw [List.contains_cons]
          simp
        rw [if_pos hcon]
        rfl
      · have hca2 : (c == a) = false := by rwa [Bool.not_eq_true] at hca
        show (List.lookup c ((a, dfRowVal ic vals a) :: _)).join = _
        rw [lookup_cons_ne a c _ _ hca2]
        have hcon : (a :: l).contains c = l.contains c := by
          rw [List.contains_cons, hca2, Bool.false_or]
        rw [hcon]
        exact ih

/-- Helper: when no incoming row conflicts with the starting rows nor with
an earlier incoming row, an upsert batch appends every row in order. -/
theorem foldl_execRow_append (now : Value) (schema : List String)
    (stmt : UpsertStmt) (L : List (List (Option Value))) :
    ∀ acc : List StoredRow,
      (∀ v ∈ L, ∀ r ∈ acc,
        keysConflict stmt.conflictCols r (toStoredRow schema stmt.insertCols v) = false) →
      List.Pairwise (fun v w =>
        keysConflict stmt.conflictCols (toStoredRow schema stmt.insertCols v)
          (toStoredRow schema stmt.insertCols w) = false) L →
      L.foldl (execRow now schema stmt) acc
        = acc ++ L.map (toStoredRow schema stmt.insertCols) := by
  induction L with
  | nil => intro acc _ _; simp
  | cons v L ih =>
      intro acc hacc hpw
      have hnoc : (acc.any (fun s =>
          keysConflict stmt.conflictCols s (toStoredRow schema stmt.insertCols v))) = false := by
        rw [List.any_eq_false]
        intro r hr
        rw [hacc v (by simp) r hr]
        simp
      have hstep : execRow now schema stmt acc v
          = acc ++ [toStoredRow schema stmt.insertCols v] := by
        unfold execRow
        rw [hnoc]
        simp
      have hrec := ih (acc ++ [toStoredRow schema stmt.insertCols v])
        (by
          intro w hw r hr
          rcases List.mem_append.mp hr with h1 | h2
          · exact hacc w (by simp [hw]) r h1
          · simp only [List.mem_singleton] at h2
            subst h2
            exact (List.pairwise_cons.mp hpw).1 w hw)
        ((List.pairwise_cons.mp hpw).2)
      rw [List.foldl_cons, hstep, hrec]
      simp

/-- Helper: a column absent from a projection's column list has no value
in the projected row. -/
theorem dfRowVal_not_mem (cols : List String) (vals : List (Option Value))
    (c : String) (h : cols.contains c = false) : dfRowVal cols vals c = none := by
  induction cols generalizing vals with
  | nil => rfl
  | cons a l ih =>
      rw [List.contains_cons] at h
      have h1 : (c == a) = false := by
        cases hca : (c == a) with
        | false => rfl
        | true => rw [hca] at h; simp at h
      have h2 : l.contains c = false := by
        cases hlc : l.contains c with
        | false => rfl
        | true => rw [hlc] at h; simp at h
      cases vals with
      | nil => rfl
      | cons v vs =>
          show ((List.zip (a :: l) (v :: vs)).lookup c).join = none
          rw [List.zip_cons_cons, lookup_cons_ne a c _ _ h1]
          exact ih vs h2

/-- Helper: an upsert statement whose referenced columns all exist and
whose conflict target is backed by a unique constraint executes without
error. -/
theorem execUpsert_ok (now : Value) (t : Table) (stmt : UpsertStmt)
    (values : List (List (Option Value)))
    (h1 : stmt.insertCols.all (t.schema.contains ·) = true)
    (h2 : stmt.conflictCols.all (t.schema.contains ·) = true)
    (h3 : (stmtUpdateSet stmt).all (fun p => t.schema.contains p.1) = true)
    (h4 : t.uniques.any (fun u => sameSet u stmt.conflictCols) = true) :
    execUpsert now t stmt values
      = .ok { t with rows := values.foldl (execRow now t.schema stmt) t.rows } := by
  unfold execUpsert
  rw [h1, h2, h3, h4]
  rfl

/-- Helper: the columns of the live-schema intersection all belong to the
schema. -/
theorem intersection_all_in_schema (cols schema : List String) :
    (cols.filter (schema.contains ·)).all (schema.contains ·) = true := by
  rw [List.all_eq_true]
  intro x hx
  exact (List.mem_filter.mp hx).2

/-- Helper: the generated `DO UPDATE SET` items all name schema columns,
provided `created_at` is a schema column. -/
theorem updateSet_all_in_schema (cols schema key : List String)
    (hcreated : schema.contains "created_at" = true) :
    (stmtUpdateSet (buildStmt (cols.filter (schema.contains ·)) key)).all
      (fun p => schema.contains p.1) = true := by
  rw [List.all_eq_true]
  intro p hp
  have hp2 : p ∈ buildUpdateSet ((cols.filter (schema.contains ·)).filter
      (fun c => !key.contains c)) := hp
  rcases List.mem_append.mp hp2 with hmap | hsing
  · obtain ⟨c, hc, rfl⟩ := List.mem_map.mp hmap
    exact (List.mem_filter.mp (List.mem_filter.mp hc).1).2
  · simp only [List.mem_singleton] at hsing
    subst hsing
    exact hcreated

/-- Helper: the normal-path computation of `insert_dataframe_to_table`:
with a non-empty DataFrame, a non-empty schema intersection, the conflict
key inside the schema and a matching unique constraint, the call commits
the executed batch and returns `True`. -/
theorem insert_dataframe_success (db : Database) (now : Value) (df : DataFrame)
    (table_name ticker : String) (key : List String) (t : Table)
    (ht : findTable db table_name = some t)
    (hde : dfEmpty df = false)
    (hicne : (df.cols.filter (t.schema.contains ·)).isEmpty = false)
    (hkey : key.all (t.schema.contains ·) = true)
    (hcreated : t.schema.contains "created_at" = true)
    (huniq : t.uniques.any (fun u => sameSet u key) = true) :
    insert_dataframe_to_table db now (some df) table_name ticker key
      = { success := true,
          db := setTable db table_name { t with rows :=
            ((df.rows.map (fun vals =>
              (df.cols.filter (t.schema.contains ·)).map (dfRowVal df.cols vals))).foldl
                (execRow now t.schema
                  (buildStmt (df.cols.filter (t.schema.contains ·)) key)) t.rows) },
          logs := [(.info,
            "Inserted/Updated rows into " ++ table_name ++ " for " ++ ticker)] } := by
  have htc : getTableColumns db table_name = t.schema := by
    unfold getTableColumns
    rw [ht]
    rfl
  have hexec := execUpsert_ok now t
    (buildStmt (df.cols.filter (t.schema.contains ·)) key)
    (df.rows.map (fun vals =>
      (df.cols.filter (t.schema.contains ·)).map (dfRowVal df.cols vals)))
    (intersection_all_in_schema df.cols t.schema) hkey
    (updateSet_all_in_schema df.cols t.schema key hcreated) huniq
  simp only [insert_dataframe_to_table, htc]
  rw [hde, if_neg Bool.false_ne_true, hicne, if_neg Bool.false_ne_true, ht]
  dsimp only
  rw [hexec]

/-- C3: for a non-empty row set, the generic upsert restricts the
inserted columns to the intersection of the DataFrame's columns with the
live table schema; columns absent from the schema are dropped without an
error (the call succeeds against a schema whose conflict key is backed by
a unique constraint), the stored rows are exactly the projections of the
incoming rows onto the intersection, and every intersected column keeps
its original value. -/
theorem generic_upsert_schema_intersection (db : Database) (now : Value)
    (df : DataFrame) (table_name ticker : String) (key : List String) (t : Table)
    (ht : findTable db table_name = some t)
    (hrows : df.rows ≠ [])
    (htrows : t.rows = [])
    (hic : df.cols.filter (t.schema.contains ·) ≠ [])
    (hkey : key.all (t.schema.contains ·) = true)
    (hcreated : t.schema.contains "created_at" = true)
    (huniq : t.uniques.any (fun u => sameSet u key) = true)
    (hpw : List.Pairwise (fun v w =>
        keysConflict key
          (toStoredRow t.schema (df.cols.filter (t.schema.contains ·)) v)
          (toStoredRow t.schema (df.cols.filter (t.schema.contains ·)) w) = false)
      (df.rows.map (fun vals =>
        (df.cols.filter (t.schema.contains ·)).map (dfRowVal df.cols vals)))) :
    (insert_dataframe_to_table db now (some df) table_name ticker key).success = true ∧
    findTable (insert_dataframe_to_table db now (some df) table_name ticker key).db
        table_name
      = some { schema := t.schema, uniques := t.uniques,
               rows := df.rows.map (fun vals =>
                 toStoredRow t.schema (df.cols.filter (t.schema.contains ·))
                   ((df.cols.filter (t.schema.contains ·)).map (dfRowVal df.cols vals))) } ∧
    ∀ (vals : List (Option Value)) (c : String),
      (df.cols.filter (t.schema.contains ·)).contains c = true →
      rowVal (toStoredRow t.schema (df.cols.filter (t.schema.contains ·))
          ((df.cols.filter (t.schema.contains ·)).map (dfRowVal df.cols vals))) c
        = dfRowVal df.cols vals c := by
  have hcolsne : df.cols ≠ [] := by
    intro h0
    apply hic
    rw [h0]
    rfl
  have h1 : df.rows.isEmpty = false := by
    cases hr : df.rows with
    | nil => exact absurd hr hrows
    | cons x xs => rfl
  have h2 : df.cols.isEmpty = false := by
    cases hc : df.cols with
    | nil => exact absurd hc hcolsne
    | cons y ys => rfl
  have hde : dfEmpty df = false := by
    unfold dfEmpty
    rw [h1, h2]
    rfl
  have hicne : (df.cols.filter (t.schema.contains ·)).isEmpty = false := by
    cases hr : df.cols.filter (t.schema.contains ·) with
    | nil => exact absurd hr hic
    | cons x xs => rfl
  have hmain := insert_dataframe_success db now df table_name ticker key t
    ht hde hicne hkey hcreated huniq
  have hfold := foldl_execRow_append now t.schema
    (buildStmt (df.cols.filter (t.schema.contains ·)) key)
    (df.rows.map (fun vals =>
      (df.cols.filter (t.schema.contains ·)).map (dfRowVal df.cols vals)))
    [] (fun v _ r hr => absurd hr (List.not_mem_nil r)) hpw
  refine ⟨?_, ?_, ?_⟩
  · rw [hmain]
  · rw [hmain]
    have := findTable_setTable db table_name t
      { t with rows :=
        ((df.rows.map (fun vals =>
          (df.cols.filter (t.schema.contains ·)).map (dfRowVal df.cols vals))).foldl
            (execRow now t.schema
              (buildStmt (df.cols.filter (t.schema.contains ·)) key)) t.rows) } ht
    rw [this, htrows, hfold, List.nil_append, List.map_map]
    rfl
  · intro vals c hc
    have hmem : c ∈ df.cols.filter (t.schema.contains ·) := List.elem_iff.mp hc
    have hcs : t.schema.contains c = true := (List.mem_filter.mp hmem).2
    rw [rowVal_toStoredRow, if_pos hcs, dfRowVal_map, if_pos hc]

/-- Witness for C3: inserting a single row with columns {a, b, c} against
a live schema {a, c, created_at} succeeds; column b is silently dropped
and the stored row keeps the original values of a and c. -/
theorem generic_upsert_schema_intersection_witness :
    (insert_dataframe_to_table [("t1", ⟨["a", "c", "created_at"], [["a"]], []⟩)]
      "ts" (some ⟨["a", "b", "c"], [[some "1", some "2", some "3"]]⟩)
      "t1" "ACME" ["a"]).success = true ∧
    findTable (insert_dataframe_to_table
        [("t1", ⟨["a", "c", "created_at"], [["a"]], []⟩)]
        "ts" (some ⟨["a", "b", "c"], [[some "1", some "2", some "3"]]⟩)
        "t1" "ACME" ["a"]).db "t1"
      = some ⟨["a", "c", "created_at"], [["a"]],
          [[("a", some "1"), ("c", some "3"), ("created_at", none)]]⟩ := by
  have h := generic_upsert_schema_intersection
    [("t1", ⟨["a", "c", "created_at"], [["a"]], []⟩)] "ts"
    ⟨["a", "b", "c"], [[some "1", some "2", some "3"]]⟩ "t1" "ACME" ["a"]
    ⟨["a", "c", "created_at"], [["a"]], []⟩
    rfl (by decide) rfl (by decide) (by decide) (by decide) (by decide)
    (by simp)
  exact ⟨h.1, h.2.1.trans (by decide)⟩

/-- Helper: an association list containing no entry for a key looks the
key up to `none`. -/
theorem lookup_eq_none_of_forall {β : Type} (l : List (String × β)) (c : String)
    (h : ∀ e, (c, e) ∉ l) : l.lookup c = none := by
  induction l with
  | nil => rfl
  | cons p rest ih =>
      obtain ⟨k, b⟩ := p
      by_cases hck : (c == k) = true
      · have hc : c = k := by rwa [beq_iff_eq] at hck
        subst hc
        exact absurd (List.mem_cons_self (c, b) rest) (h b)
      · have hck2 : (c == k) = false := by rwa [Bool.not_eq_true] at hck
        rw [lookup_cons_ne k c b rest hck2]
        exact ih (fun e he => h e (List.mem_cons_of_mem _ he))

/-- Helper: a `DO UPDATE SET` list with no entry for a column leaves that
column's stored value untouched. -/
theorem rowVal_applyUpdate_of_lookup_none (nowv : Value) (ic : List String)
    (vals : List (Option Value)) (set : List (String × UpdateExpr))
    (s : StoredRow) (c : String) (h : set.lookup c = none) :
    rowVal (applyUpdate nowv ic vals set s) c = rowVal s c := by
  induction s with
  | nil => rfl
  | cons p rest ih =>
      obtain ⟨c1, v1⟩ := p
      by_cases hcc : (c == c1) = true
      · have hc : c = c1 := by rwa [beq_iff_eq] at hcc
        subst hc
        show rowVal ((match set.lookup c with
          | some (.excluded c2) => (c, dfRowVal ic vals c2)
          | some .currentTimestamp => (c, some nowv)
          | none => (c, v1)) :: applyUpdate nowv ic vals set rest) c
          = rowVal ((c, v1) :: rest) c
        rw [h]
        show rowVal ((c, v1) :: applyUpdate nowv ic vals set rest) c
          = rowVal ((c, v1) :: rest) c
        unfold rowVal
        rw [lookup_cons_self, lookup_cons_self]
      · have hcc2 : (c == c1) = false := by rwa [Bool.not_eq_true] at hcc
        show rowVal ((match set.lookup c1 with
          | some (.excluded c2) => (c1, dfRowVal ic vals c2)
          | some .currentTimestamp => (c1, some nowv)
          | none => (c1, v1)) :: applyUpdate nowv ic vals set rest) c
          = rowVal ((c1, v1) :: rest) c
        cases hl : set.lookup c1 with
        | none =>
            show rowVal ((c1, v1) :: applyUpdate nowv ic vals set rest) c
              = rowVal ((c1, v1) :: rest) c
            unfold rowVal
            rw [lookup_cons_ne c1 c v1 _ hcc2, lookup_cons_ne c1 c v1 rest hcc2]
            exact ih
        | some u =>
            cases u with
            | excluded c2 =>
                show rowVal ((c1, dfRowVal ic vals c2) ::
                  applyUpdate nowv ic vals set rest) c = rowVal ((c1, v1) :: rest) c
                unfold rowVal
                rw [lookup_cons_ne c1 c _ _ hcc2, lookup_cons_ne c1 c v1 rest hcc2]
                exact ih
            | currentTimestamp =>
                show rowVal ((c1, some nowv) ::
                  applyUpdate nowv ic vals set rest) c = rowVal ((c1, v1) :: rest) c
                unfold rowVal
                rw [lookup_cons_ne c1 c _ _ hcc2, lookup_cons_ne c1 c v1 rest hcc2]
                exact ih

/-- C4: the statement built by the generic upsert updates, on conflict,
exactly the intersected non-key columns (each set to the incoming
`EXCLUDED` value) plus the `created_at` timestamp; for the conflict keys
declared at the call sites, no conflict-key column ever appears in the
`DO UPDATE SET` list, and executing the update leaves every conflict-key
column of a stored row unchanged. -/
theorem upsert_update_set_characterization (df_columns key : List String)
    (hk : key ∈ declared_conflict_keys) :
    (∀ (c : String) (e : UpdateExpr),
      (c, e) ∈ stmtUpdateSet (buildStmt df_columns key) ↔
        ((c ∈ df_columns ∧ c ∉ key ∧ e = UpdateExpr.excluded c) ∨
         (c = "created_at" ∧ e = UpdateExpr.currentTimestamp))) ∧
    (∀ c ∈ key, ∀ e : UpdateExpr,
      (c, e) ∉ stmtUpdateSet (buildStmt df_columns key)) ∧
    (∀ (nowv : Value) (vals : List (Option Value)) (s : StoredRow), ∀ c ∈ key,
      rowVal (applyUpdate nowv df_columns vals
        (stmtUpdateSet (buildStmt df_columns key)) s) c = rowVal s c) := by
  have hca : "created_at" ∉ key := by
    simp only [declared_conflict_keys, List.mem_cons, List.mem_singleton,
      List.not_mem_nil, or_false] at hk
    rcases hk with rfl | rfl | rfl | rfl <;> decide
  have hchar : ∀ (c : String) (e : UpdateExpr),
      (c, e) ∈ stmtUpdateSet (buildStmt df_columns key) ↔
        ((c ∈ df_columns ∧ c ∉ key ∧ e = UpdateExpr.excluded c) ∨
         (c = "created_at" ∧ e = UpdateExpr.currentTimestamp)) := by
    intro c e
    show (c, e) ∈ buildUpdateSet (df_columns.filter (fun x => !key.contains x)) ↔ _
    unfold buildUpdateSet
    rw [List.mem_append]
    constructor
    · rintro (hmap | hsing)
      · obtain ⟨c2, hc2, heq⟩ := List.mem_map.mp hmap
        injection heq with he1 he2
        subst he1
        refine Or.inl ⟨(List.mem_filter.mp hc2).1, ?_, he2.symm⟩
        have hb := (List.mem_filter.mp hc2).2
        intro hmem
        have hkc : key.contains c2 = true := List.elem_iff.mpr hmem
        rw [hkc] at hb
        exact absurd hb (by decide)
      · simp only [List.mem_singleton, Prod.mk.injEq] at hsing
        exact Or.inr ⟨hsing.1, hsing.2⟩
    · rintro (⟨hmem, hnot, rfl⟩ | ⟨rfl, rfl⟩)
      · refine Or.inl (List.mem_map.mpr ⟨c, ?_, rfl⟩)
        refine List.mem_filter.mpr ⟨hmem, ?_⟩
        have : key.contains c = false := by
          cases hkc : key.contains c with
          | false => rfl
          | true => exact absurd (List.elem_iff.mp hkc) hnot
        rw [this]
        rfl
      · exact Or.inr (List.mem_singleton.mpr rfl)
  have hnotin : ∀ c ∈ key, ∀ e : UpdateExpr,
      (c, e) ∉ stmtUpdateSet (buildStmt df_columns key) := by
    intro c hc e hmem
    rcases (hchar c e).mp hmem with ⟨_, hnot, _⟩ | ⟨rfl, _⟩
    · exact hnot hc
    · exact hca hc
  refine ⟨hchar, hnotin, ?_⟩
  intro nowv vals s c hc
  exact rowVal_applyUpdate_of_lookup_none nowv df_columns vals _ s c
    (lookup_eq_none_of_forall _ c (fun e => hnotin c hc e))

/-- Witness for C4: for the balance-sheet conflict key {symbol, asOfDate},
the key column `symbol` is not updated on conflict while the data column
`TotalAssets` is. -/
theorem upsert_update_set_characterization_witness :
    (("symbol", UpdateExpr.excluded "symbol") ∉
      stmtUpdateSet (buildStmt ["symbol", "asOfDate", "TotalAssets"]
        ["symbol", "asOfDate"])) ∧
    (("TotalAssets", UpdateExpr.excluded "TotalAssets") ∈
      stmtUpdateSet (buildStmt ["symbol", "asOfDate", "TotalAssets"]
        ["symbol", "asOfDate"])) := by
  have h := upsert_update_set_characterization
    ["symbol", "asOfDate", "TotalAssets"] ["symbol", "asOfDate"] (by decide)
  exact ⟨h.2.1 "symbol" (by decide) _,
    (h.1 "TotalAssets" (UpdateExpr.excluded "TotalAssets")).mpr
      (Or.inl ⟨by decide, by decide, rfl⟩)⟩

/-- Counterexample for C7: a "nothing to insert" call (missing DataFrame)
and a call failing with a genuine database error (the DDL's missing
unique constraint) both return `False` — the caller cannot tell the two
apart from the return value; only the log level differs. -/
theorem noop_and_db_error_return_equal :
    (insert_dataframe_to_table create_all_tables "t0" none "balance_sheet"
      "ACME" ["symbol", "asOfDate"]).success = false ∧
    (insert_dataframe_to_table create_all_tables "t0"
      (some ⟨["symbol", "asOfDate"], [[some "ACME", some "2024-01-01"]]⟩)
      "balance_sheet" "ACME" ["symbol", "asOfDate"]).success = false ∧
    (insert_dataframe_to_table create_all_tables "t0" none "balance_sheet"
      "ACME" ["symbol", "asOfDate"]).logs.map Prod.fst = [LogLevel.warning] ∧
    (insert_dataframe_to_table create_all_tables "t0"
      (some ⟨["symbol", "asOfDate"], [[some "ACME", some "2024-01-01"]]⟩)
      "balance_sheet" "ACME" ["symbol", "asOfDate"]).logs.map Prod.fst
      = [LogLevel.error] :=
  ⟨rfl, rfl, rfl, rfl⟩

/-- C7 (amended): with an empty row set or an empty schema intersection
the generic upsert is a non-error no-op — it returns `False` without
touching the database and logs a warning (not an error); but the returned
`False` is the same value a genuine database error produces, so the two
outcomes are distinguishable only in the logs, not by the caller from the
return value. -/
theorem nothing_to_insert_noop (db : Database) (now : Value)
    (df : Option DataFrame) (table_name ticker : String) (key : List String)
    (h : dfOptEmpty df = true ∨
      ∃ d, df = some d ∧ dfEmpty d = false ∧
        d.cols.filter ((getTableColumns db table_name).contains ·) = []) :
    (insert_dataframe_to_table db now df table_name ticker key).success = false ∧
    (insert_dataframe_to_table db now df table_name ticker key).db = db ∧
    (insert_dataframe_to_table db now df table_name ticker key).logs.map Prod.fst
      = [LogLevel.warning] := by
  rcases h with h | ⟨d, rfl, hde, hfil⟩
  · rw [insert_dataframe_nodata db now df table_name ticker key h]
    exact ⟨rfl, rfl, rfl⟩
  · have hfe : (d.cols.filter ((getTableColumns db table_name).contains ·)).isEmpty
        = true := by
      rw [hfil]
      rfl
    simp only [insert_dataframe_to_table]
    rw [hde, if_neg Bool.false_ne_true, hfe, if_pos rfl]
    exact ⟨rfl, rfl, rfl⟩

/-- Witness for C7 (amended): a call with a missing DataFrame is a
failure-free no-op. -/
theorem nothing_to_insert_noop_witness :
    (insert_dataframe_to_table [] "t0" none "balance_sheet" "ACME"
      ["symbol"]).success = false ∧
    (insert_dataframe_to_table [] "t0" none "balance_sheet" "ACME"
      ["symbol"]).db = [] ∧
    (insert_dataframe_to_table [] "t0" none "balance_sheet" "ACME"
      ["symbol"]).logs.map Prod.fst = [LogLevel.warning] :=
  nothing_to_insert_noop [] "t0" none "balance_sheet" "ACME" ["symbol"]
    (Or.inl rfl)

/-- Counterexample for C8: with the conflict-key column `a` absent from
the DataFrame's columns (so absent from the schema intersection), the
call raises no error at all — it returns `True` with an info log, and a
second identical call silently stores a duplicate row (the inserted rows
carry NULL in `a`, and NULLs never conflict under a unique index). -/
theorem missing_conflict_key_silent_duplicate :
    (insert_dataframe_to_table [("t1", ⟨["a", "b", "created_at"], [["a"]], []⟩)]
      "t0" (some ⟨["b"], [[some "7"]]⟩) "t1" "ACME" ["a"]).success = true ∧
    (insert_dataframe_to_table [("t1", ⟨["a", "b", "created_at"], [["a"]], []⟩)]
      "t0" (some ⟨["b"], [[some "7"]]⟩) "t1" "ACME" ["a"]).logs.map Prod.fst
      = [LogLevel.info] ∧
    (insert_dataframe_to_table
      (insert_dataframe_to_table [("t1", ⟨["a", "b", "created_at"], [["a"]], []⟩)]
        "t0" (some ⟨["b"], [[some "7"]]⟩) "t1" "ACME" ["a"]).db
      "t1" (some ⟨["b"], [[some "7"]]⟩) "t1" "ACME" ["a"]).success = true ∧
    ((findTable (insert_dataframe_to_table
        (insert_dataframe_to_table [("t1", ⟨["a", "b", "created_at"], [["a"]], []⟩)]
          "t0" (some ⟨["b"], [[some "7"]]⟩) "t1" "ACME" ["a"]).db
        "t1" (some ⟨["b"], [[some "7"]]⟩) "t1" "ACME" ["a"]).db "t1").map
      (fun t => t.rows.length)) = some 2 :=
  ⟨rfl, rfl, rfl, rfl⟩

/-- C8 (amended): when a declared conflict-key column is missing from the
schema-intersected columns but exists in the table with a backing unique
constraint, the generic upsert does not raise any error: the inserted
rows carry NULL in that key column, NULL key values never conflict, and
the statement degenerates to a plain append of every incoming row —
silently duplicating on re-runs and returning `True`. -/
theorem missing_conflict_key_plain_insert (db : Database) (now : Value)
    (df : DataFrame) (table_name ticker : String) (key : List String)
    (t : Table) (k : String)
    (ht : findTable db table_name = some t)
    (hrows : df.rows ≠ [])
    (hic : df.cols.filter (t.schema.contains ·) ≠ [])
    (hkey : key.all (t.schema.contains ·) = true)
    (hcreated : t.schema.contains "created_at" = true)
    (huniq : t.uniques.any (fun u => sameSet u key) = true)
    (hk : k ∈ key)
    (hknot : df.cols.contains k = false) :
    (insert_dataframe_to_table db now (some df) table_name ticker key).success
      = true ∧
    (insert_dataframe_to_table db now (some df) table_name ticker
      key).logs.map Prod.fst = [LogLevel.info] ∧
    findTable (insert_dataframe_to_table db now (some df) table_name ticker
        key).db table_name
      = some { schema := t.schema, uniques := t.uniques,
               rows := t.rows ++ df.rows.map (fun vals =>
                 toStoredRow t.schema (df.cols.filter (t.schema.contains ·))
                   ((df.cols.filter (t.schema.contains ·)).map
                     (dfRowVal df.cols vals))) } := by
  have hcolsne : df.cols ≠ [] := by
    intro h0
    apply hic
    rw [h0]
    rfl
  have h1 : df.rows.isEmpty = false := by
    cases hr : df.rows with
    | nil => exact absurd hr hrows
    | cons x xs => rfl
  have h2 : df.cols.isEmpty = false := by
    cases hc : df.cols with
    | nil => exact absurd hc hcolsne
    | cons y ys => rfl
  have hde : dfEmpty df = false := by
    unfold dfEmpty
    rw [h1, h2]
    rfl
  have hicne : (df.cols.filter (t.schema.contains ·)).isEmpty = false := by
    cases hr : df.cols.filter (t.schema.contains ·) with
    | nil => exact absurd hr hic
    | cons x xs => rfl
  have hks : t.schema.contains k = true := List.all_eq_true.mp hkey k hk
  have hkic : (df.cols.filter (t.schema.contains ·)).contains k = false := by
    cases hcc : (df.cols.filter (t.schema.contains ·)).contains k with
    | false => rfl
    | true =>
        have hmem := List.elem_iff.mp hcc
        have hmemc : k ∈ df.cols := (List.mem_filter.mp hmem).1
        have : df.cols.contains k = true := List.elem_iff.mpr hmemc
        rw [this] at hknot
        exact absurd hknot (by decide)
  have hnull : ∀ w : List (Option Value),
      rowVal (toStoredRow t.schema (df.cols.filter (t.schema.contains ·)) w) k
        = none := by
    intro w
    rw [rowVal_toStoredRow, if_pos hks]
    exact dfRowVal_not_mem _ w k hkic
  have hconf : ∀ (w : List (Option Value)) (r : StoredRow),
      keysConflict key r
        (toStoredRow t.schema (df.cols.filter (t.schema.contains ·)) w)
        = false := by
    intro w r
    show key.all _ = false
    rw [List.all_eq_false]
    refine ⟨k, hk, ?_⟩
    dsimp only
    rw [hnull w]
    cases rowVal r k <;> simp
  have hmain := insert_dataframe_success db now df table_name ticker key t
    ht hde hicne hkey hcreated huniq
  have hfold := foldl_execRow_append now t.schema
    (buildStmt (df.cols.filter (t.schema.contains ·)) key)
    (df.rows.map (fun vals =>
      (df.cols.filter (t.schema.contains ·)).map (dfRowVal df.cols vals)))
    t.rows
    (fun v _ r _ => hconf v r)
    (pairwise_of_forall_rel (fun v w => hconf w
      (toStoredRow t.schema (df.cols.filter (t.schema.contains ·)) v)) _)
  refine ⟨?_, ?_, ?_⟩
  · rw [hmain]
  · rw [hmain]
    rfl
  · rw [hmain]
    have hset := findTable_setTable db table_name t
      { t with rows :=
        ((df.rows.map (fun vals =>
          (df.cols.filter (t.schema.contains ·)).map (dfRowVal df.cols vals))).foldl
            (execRow now t.schema
              (buildStmt (df.cols.filter (t.schema.contains ·)) key)) t.rows) } ht
    rw [hset, hfold, List.map_map]
    rfl

/-- Witness for C8 (amended): a table already holding one row for the
missing key gets an identical second row appended with no error. -/
theorem missing_conflict_key_plain_insert_witness :
    (insert_dataframe_to_table
      [("t2", ⟨["a", "b", "created_at"], [["a"]],
        [[("a", none), ("b", some "7"), ("created_at", none)]]⟩)]
      "t0" (some ⟨["b"], [[some "7"]]⟩) "t2" "ACME" ["a"]).success = true ∧
    findTable (insert_dataframe_to_table
      [("t2", ⟨["a", "b", "created_at"], [["a"]],
        [[("a", none), ("b", some "7"), ("created_at", none)]]⟩)]
      "t0" (some ⟨["b"], [[some "7"]]⟩) "t2" "ACME" ["a"]).db "t2"
      = some ⟨["a", "b", "created_at"], [["a"]],
          [[("a", none), ("b", some "7"), ("created_at", none)],
           [("a", none), ("b", some "7"), ("created_at", none)]]⟩ := by
  have h := missing_conflict_key_plain_insert
    [("t2", ⟨["a", "b", "created_at"], [["a"]],
      [[("a", none), ("b", some "7"), ("created_at", none)]]⟩)]
    "t0" ⟨["b"], [[some "7"]]⟩ "t2" "ACME" ["a"]
    ⟨["a", "b", "created_at"], [["a"]],
      [[("a", none), ("b", some "7"), ("created_at", none)]]⟩ "a"
    rfl (by decide) (by decide) (by decide) (by decide) (by decide)
    (by decide) (by decide)
  exact ⟨h.1, h.2.2.trans (by decide)⟩

end TickerETL
